import Mathlib

/-!
Shallow embedding of `src/ompi/mca/common/ompio/common_ompio_buffer.c`.

The file embeds the five public operations of the ompio buffer subsystem
(`mca_common_ompio_check_gpu_buf`, `mca_common_ompio_buffer_alloc_seg`,
`mca_common_ompio_buffer_free_seg`, `mca_common_ompio_buffer_alloc_init`,
`mca_common_ompio_buffer_alloc_fini`, `mca_common_ompio_alloc_buf`,
`mca_common_ompio_release_buf`) as pure Lean functions.  External
collaborators (the accelerator runtime, `malloc`, the pluggable allocator
module) are passed in as oracle functions; calls into them are recorded in
explicit event traces where a claim is about which calls happen.  `size_t`
arithmetic is modelled over `Nat` with an explicit `% 2^64` where the C
code can wrap.
-/

namespace CommonOmpioBuffer

/-- Modulus of `size_t` (64-bit) arithmetic. -/
def UINT64_MOD : Nat := 18446744073709551616

/-- Modelled from the spec: the `OMPI_FILE_ASSERT_NO_ACCEL_BUF` flag bit of an
ompi file handle.  The header defining the numeric value is not part of the
sources; the spec only requires it to be a designated bit of `f_flags`, so it
is modelled as bit 0. -/
def OMPI_FILE_ASSERT_NO_ACCEL_BUF : Nat := 1

/-- Modelled from the spec: the `MCA_ACCELERATOR_FLAGS_UNIFIED_MEMORY` flag bit
returned by the accelerator runtime's `check_addr`.  The header defining the
numeric value is not part of the sources; it is modelled as bit 0 of the
`flags` word. -/
def MCA_ACCELERATOR_FLAGS_UNIFIED_MEMORY : Nat := 1

/-- Modelled from the spec: the `MCA_ACCELERATOR_NO_DEVICE_ID` sentinel passed
to `host_register`.  Its numeric value is defined in a header outside the
sources and is irrelevant to the claims; it is modelled as `-1`. -/
def MCA_ACCELERATOR_NO_DEVICE_ID : Int := -1

/-- Result of the accelerator runtime's `check_addr(buf, &dev_id, &flags)`
query: the return code and the two out-parameters. -/
structure CheckAddrOut where
  ret : Int
  dev_id : Int
  flags : Nat
deriving DecidableEq

/-- The part of an `ompio_file_t` handle the embedded code reads:
`fh->f_fh->f_flags`. -/
structure OmpioFileHandle where
  f_flags : Nat
deriving DecidableEq

/-- Result of `mca_common_ompio_check_gpu_buf`: the two out-parameters
`*is_gpu` and `*is_managed`, plus a trace bit recording whether
`opal_accelerator.check_addr` was invoked. -/
structure CheckGpuOut where
  is_gpu : Int
  is_managed : Int
  queried_accelerator : Bool
deriving DecidableEq

/-- Embedding of `mca_common_ompio_check_gpu_buf` (lines 43-64).  Both
out-parameters start at 0; if `OMPI_FILE_ASSERT_NO_ACCEL_BUF` is set in the
handle flags the function returns before querying the accelerator runtime;
otherwise a strictly positive `check_addr` return sets `is_gpu` to 1 and,
when the unified-memory flag is reported, `is_managed` to 1. -/
def mca_common_ompio_check_gpu_buf (check_addr : Nat → CheckAddrOut)
    (fh : OmpioFileHandle) (buf : Nat) : CheckGpuOut :=
  if fh.f_flags &&& OMPI_FILE_ASSERT_NO_ACCEL_BUF ≠ 0 then
    { is_gpu := 0, is_managed := 0, queried_accelerator := false }
  else
    let r := check_addr buf
    if 0 < r.ret then
      { is_gpu := 1
        is_managed := if r.flags &&& MCA_ACCELERATOR_FLAGS_UNIFIED_MEMORY ≠ 0 then 1 else 0
        queried_accelerator := true }
    else
      { is_gpu := 0, is_managed := 0, queried_accelerator := true }

/-- External calls made by `mca_common_ompio_buffer_alloc_seg`, in order. -/
inductive SegEvent where
  | malloc_call (size : Nat) (ok : Bool)
  | host_register (dev : Int) (buf : Nat) (size : Nat)
deriving DecidableEq

/-- Recognizer for the `host_register` event. -/
def SegEvent.isRegister : SegEvent → Bool
  | SegEvent.host_register _ _ _ => true
  | _ => false

/-- Result of `mca_common_ompio_buffer_alloc_seg`: the returned buffer
(`none` models a NULL return), the value written back through `*size`, and
the trace of external calls. -/
structure AllocSegOut where
  buf : Option Nat
  size : Nat
  events : List SegEvent
deriving DecidableEq

/-- Embedding of `mca_common_ompio_buffer_alloc_seg` (lines 66-82).
`numpages = (*size + pagesize - 1) / pagesize` over `size_t` arithmetic (the
addition can wrap modulo `2^64`), `realsize = numpages * pagesize`;
`malloc(realsize)` is attempted and, only when it returns non-NULL, the range
is registered with the accelerator runtime; `*size` is set to `realsize` in
all cases. -/
def mca_common_ompio_buffer_alloc_seg (pagesize : Nat) (malloc : Nat → Option Nat)
    (size : Nat) : AllocSegOut :=
  let numpages := ((size + pagesize - 1) % UINT64_MOD) / pagesize
  let realsize := numpages * pagesize
  { buf := malloc realsize
    size := realsize
    events :=
      match malloc realsize with
      | some b => [SegEvent.malloc_call realsize true,
                   SegEvent.host_register MCA_ACCELERATOR_NO_DEVICE_ID b realsize]
      | none => [SegEvent.malloc_call realsize false] }

/-- Definition following the spec's words (section 8, page rounding): the
actual size is `ceil(requestedSize / pageSize) * pageSize`, computed over
unbounded naturals. -/
def specActualSize (s pagesize : Nat) : Nat :=
  ((s + pagesize - 1) / pagesize) * pagesize

/-- External calls made by `mca_common_ompio_buffer_free_seg`, in order. -/
inductive FreeEvent where
  | check_addr_call (buf : Nat)
  | host_unregister (dev : Int) (buf : Nat)
  | free_call (buf : Nat)
deriving DecidableEq

/-- Embedding of `mca_common_ompio_buffer_free_seg` (lines 84-96), as the
trace of external calls it performs.  A NULL buffer (`none`) does nothing.
Otherwise `check_addr` is queried; on a zero return the pointer is
unregistered (the unregister return value, supplied by the
`host_unregister_ret` oracle, is discarded by the code) and the raw `free`
always follows. -/
def mca_common_ompio_buffer_free_seg (check_addr : Nat → CheckAddrOut)
    (host_unregister_ret : Int → Nat → Int) (buf : Option Nat) : List FreeEvent :=
  match buf with
  | none => []
  | some b =>
    let r := check_addr b
    if r.ret = 0 then
      let _ := host_unregister_ret r.dev_id b
      [FreeEvent.check_addr_call b, FreeEvent.host_unregister r.dev_id b,
       FreeEvent.free_call b]
    else
      [FreeEvent.check_addr_call b, FreeEvent.free_call b]

/-- Wrap of a mathematical integer into the `int32_t` range, as performed by
`OPAL_THREAD_ADD_FETCH32` on the `opal_atomic_int32_t` counter. -/
def wrap32 (n : Int) : Int := (n + 2147483648) % 4294967296 - 2147483648

/-- The static state of the buffer subsystem: the atomic init counter
`mca_common_ompio_buffer_init`, whether `mca_common_ompio_allocator_component`
and `mca_common_ompio_allocator` are non-NULL, whether the mutex object is
currently constructed, and the cached `mca_common_ompio_pagesize`. -/
structure BufState where
  buffer_init : Int
  allocator_component : Bool
  allocator : Bool
  mutex_alive : Bool
  pagesize : Nat
deriving DecidableEq

/-- The state at process start: counter 0, both pointers NULL, mutex not yet
constructed, pagesize statically initialized to 4096. -/
def initialBufState : BufState :=
  { buffer_init := 0, allocator_component := false, allocator := false
    mutex_alive := false, pagesize := 4096 }

/-- Behavior of the external collaborators consulted during initialization
and allocation: whether `mca_allocator_component_lookup("basic")` finds a
component, whether `allocator_init` on that component returns a non-NULL
module, the value of `opal_getpagesize()`, and the module's `alc_alloc`
behavior (`none` models a NULL return). -/
structure LifecycleEnv where
  lookup_basic_ok : Bool
  allocator_init_ok : Bool
  getpagesize : Nat
  alc_alloc : Nat → Option Nat

/-- Return codes of the init and fini entry points. -/
inductive RetCode where
  | success
  | err_buffer
deriving DecidableEq

/-- Result of `mca_common_ompio_buffer_alloc_init`: the return code, the
updated static state, and a trace bit recording whether the one-time
construction body (mutex construction, component lookup, allocator
instantiation, pagesize caching) was entered. -/
structure InitOut where
  ret : RetCode
  state : BufState
  construction_ran : Bool
deriving DecidableEq

/-- Embedding of `mca_common_ompio_buffer_alloc_init` (lines 98-129).  The
counter is atomically incremented; a post-increment value strictly greater
than 1 returns success at once without construction.  Otherwise the mutex is
constructed, the "basic" allocator component looked up (failure returns
`OMPI_ERR_BUFFER`), the allocator module instantiated (NULL returns
`OMPI_ERR_BUFFER`), and the page size cached. -/
def mca_common_ompio_buffer_alloc_init (env : LifecycleEnv) (s : BufState) : InitOut :=
  let newval := wrap32 (s.buffer_init + 1)
  let s1 := { s with buffer_init := newval }
  if 1 < newval then
    { ret := RetCode.success, state := s1, construction_ran := false }
  else
    let s2 := { s1 with mutex_alive := true }
    if env.lookup_basic_ok = false then
      { ret := RetCode.err_buffer, state := { s2 with allocator_component := false }
        construction_ran := true }
    else
      let s3 := { s2 with allocator_component := true }
      if env.allocator_init_ok = false then
        { ret := RetCode.err_buffer, state := { s3 with allocator := false }
          construction_ran := true }
      else
        { ret := RetCode.success
          state := { s3 with allocator := true, pagesize := env.getpagesize }
          construction_ran := true }

/-- Result of `mca_common_ompio_buffer_alloc_fini`: the return code, the
updated static state, and whether `alc_finalize` was invoked. -/
structure FiniOut where
  ret : RetCode
  state : BufState
  finalized : Bool
deriving DecidableEq

/-- Embedding of `mca_common_ompio_buffer_alloc_fini` (lines 131-142).  When
the allocator module pointer is non-NULL it is finalized and cleared and the
mutex object is destructed; otherwise nothing happens.  The init counter is
not touched in either case. -/
def mca_common_ompio_buffer_alloc_fini (s : BufState) : FiniOut :=
  if s.allocator then
    { ret := RetCode.success
      state := { s with allocator := false, mutex_alive := false }
      finalized := true }
  else
    { ret := RetCode.success, state := s, finalized := false }

/-- Outcome of `mca_common_ompio_alloc_buf`: either the pointer returned by
`alc_alloc` through a non-NULL allocator module, or an unsafe dereference of
a NULL `mca_common_ompio_allocator` pointer. -/
inductive AllocBufOutcome where
  | returned (p : Option Nat)
  | null_handle_deref
deriving DecidableEq

/-- Result of `mca_common_ompio_alloc_buf`: the outcome, the updated static
state, and a trace bit recording whether `mca_common_ompio_buffer_alloc_init`
was invoked from the allocate path. -/
structure AllocBufOut where
  outcome : AllocBufOutcome
  state : BufState
  init_attempted : Bool
deriving DecidableEq

/-- Embedding of `mca_common_ompio_alloc_buf` (lines 144-157).  When the
init counter reads 0 the init entry point is called (its return code is
ignored by the code); then `allocator->alc_alloc(allocator, bufsize, 0)` is
invoked unconditionally, which dereferences a NULL pointer whenever the
allocator module is absent. -/
def mca_common_ompio_alloc_buf (env : LifecycleEnv) (s : BufState)
    (bufsize : Nat) : AllocBufOut :=
  if s.buffer_init = 0 then
    let io := mca_common_ompio_buffer_alloc_init env s
    if io.state.allocator then
      { outcome := AllocBufOutcome.returned (env.alc_alloc bufsize)
        state := io.state, init_attempted := true }
    else
      { outcome := AllocBufOutcome.null_handle_deref
        state := io.state, init_attempted := true }
  else
    if s.allocator then
      { outcome := AllocBufOutcome.returned (env.alc_alloc bufsize)
        state := s, init_attempted := false }
    else
      { outcome := AllocBufOutcome.null_handle_deref
        state := s, init_attempted := false }

/-- Outcome of `mca_common_ompio_release_buf`: either `alc_free` was reached
through a non-NULL allocator module, or a NULL allocator pointer was
dereferenced. -/
inductive ReleaseBufOutcome where
  | freed
  | null_handle_deref
deriving DecidableEq

/-- Result of `mca_common_ompio_release_buf`: the outcome and whether the
"allocator not initialized" error message was emitted via `opal_output`. -/
structure ReleaseBufOut where
  outcome : ReleaseBufOutcome
  error_logged : Bool
deriving DecidableEq

/-- Embedding of `mca_common_ompio_release_buf` (lines 159-175).  When the
init counter reads 0 an error is logged, but in every case the code then
calls `allocator->alc_free(allocator, buf)`, dereferencing a NULL pointer
whenever the allocator module is absent. -/
def mca_common_ompio_release_buf (s : BufState) (buf : Option Nat) : ReleaseBufOut :=
  let logged := decide (s.buffer_init = 0)
  if s.allocator then
    { outcome := ReleaseBufOutcome.freed, error_logged := logged }
  else
    { outcome := ReleaseBufOutcome.null_handle_deref, error_logged := logged }

/-- Iterated application of the init entry point: the state after `n`
consecutive calls to `mca_common_ompio_buffer_alloc_init`. -/
def iterate_init (env : LifecycleEnv) : Nat → BufState → BufState
  | 0, s => s
  | Nat.succ n, s =>
    iterate_init env n (mca_common_ompio_buffer_alloc_init env s).state

/-- A fully functional environment: the "basic" component is found, the
allocator instantiates, the page size is 4096, and `alc_alloc` always
returns a (model) pointer. -/
def envGood : LifecycleEnv :=
  { lookup_basic_ok := true, allocator_init_ok := true, getpagesize := 4096
    alc_alloc := fun _ => some 7 }

/-- An environment in which the "basic" allocator component lookup fails, so
construction fails with `OMPI_ERR_BUFFER`. -/
def envNoLookup : LifecycleEnv :=
  { lookup_basic_ok := false, allocator_init_ok := true, getpagesize := 4096
    alc_alloc := fun _ => some 7 }

/-- A concrete `check_addr` oracle reporting device-resident unified memory. -/
def checkAddrUnified : Nat → CheckAddrOut :=
  fun _ => { ret := 1, dev_id := 0, flags := 1 }

/-- A concrete `check_addr` oracle reporting host memory (zero return). -/
def checkAddrHost : Nat → CheckAddrOut :=
  fun _ => { ret := 0, dev_id := 2, flags := 0 }

/-- A concrete `host_unregister` oracle that always fails. -/
def unregAlwaysFails : Int → Nat → Int := fun _ _ => -5

/-- A concrete `malloc` oracle that always succeeds. -/
def mallocOk : Nat → Option Nat := fun _ => some 1

/-- A concrete `malloc` oracle that always fails. -/
def mallocNone : Nat → Option Nat := fun _ => none

/-- The value written through the out-parameter of the segment allocator is
the page-rounded size computed from the request. -/
theorem alloc_seg_size_eq (pagesize : Nat) (malloc : Nat → Option Nat) (s : Nat) :
    (mca_common_ompio_buffer_alloc_seg pagesize malloc s).size
      = (s + pagesize - 1) % UINT64_MOD / pagesize * pagesize := rfl

/-- Claim C4, counterexample: with page size 4096 and a `malloc` that
succeeds even on a zero-byte request, a request of size 0 yields a
successful segment of actual size 0, which is not at least one page; the
claim's "minimum one page, even for a zero request" fails on the code. -/
theorem C4_zero_request_counterexample :
    ((mca_common_ompio_buffer_alloc_seg 4096 mallocOk 0).buf).isSome = true ∧
    (mca_common_ompio_buffer_alloc_seg 4096 mallocOk 0).size = 0 ∧
    ¬ (4096 ≤ (mca_common_ompio_buffer_alloc_seg 4096 mallocOk 0).size) := by
  decide

/-- Claim C4 (amended): for every requested size of at least one byte whose
page rounding does not overflow `size_t`, `mca_common_ompio_buffer_alloc_seg`
computes an actual size that is a whole multiple of the cached page size,
never smaller than the requested size, and at least one page.  For a zero
request the code computes zero pages, so the actual size is 0, not one
page. -/
theorem C4_page_rounding_amended (pagesize : Nat) (malloc : Nat → Option Nat)
    (s : Nat) (hps : 0 < pagesize) (hs : 1 ≤ s)
    (hnw : s + pagesize - 1 < UINT64_MOD) :
    (mca_common_ompio_buffer_alloc_seg pagesize malloc s).size % pagesize = 0 ∧
    s ≤ (mca_common_ompio_buffer_alloc_seg pagesize malloc s).size ∧
    pagesize ≤ (mca_common_ompio_buffer_alloc_seg pagesize malloc s).size := by
  rw [alloc_seg_size_eq, Nat.mod_eq_of_lt hnw]
  refine ⟨Nat.mul_mod_left _ _, ?_, ?_⟩
  · have hdm := Nat.div_add_mod (s + pagesize - 1) pagesize
    have hmod := Nat.mod_lt (s + pagesize - 1) hps
    have hcomm : (s + pagesize - 1) / pagesize * pagesize
        = pagesize * ((s + pagesize - 1) / pagesize) := Nat.mul_comm _ _
    omega
  · have hq1 : 1 ≤ (s + pagesize - 1) / pagesize :=
      (Nat.one_le_div_iff hps).mpr (by omega)
    calc pagesize = 1 * pagesize := (Nat.one_mul pagesize).symm
      _ ≤ (s + pagesize - 1) / pagesize * pagesize :=
          Nat.mul_le_mul hq1 (Nat.le_refl pagesize)

/-- Claim C4, witness: the amended page-rounding theorem applied at a
concrete request of 100 bytes with page size 4096. -/
theorem C4_page_rounding_witness :
    (mca_common_ompio_buffer_alloc_seg 4096 mallocOk 100).size % 4096 = 0 ∧
    100 ≤ (mca_common_ompio_buffer_alloc_seg 4096 mallocOk 100).size ∧
    4096 ≤ (mca_common_ompio_buffer_alloc_seg 4096 mallocOk 100).size :=
  C4_page_rounding_amended 4096 mallocOk 100 (by decide) (by decide) (by decide)

/-- Claim C5, counterexample: the addition `*size + pagesize - 1` is
performed in `size_t` arithmetic, so at the request `2^64 - 1` it wraps and
the code computes an actual size of 0: the call still succeeds (a `malloc`
that returns non-NULL for a zero-byte request is permitted), yet the actual
size differs from `ceil(s / pageSize) * pageSize` and is smaller than the
request. -/
theorem C5_overflow_counterexample :
    ((mca_common_ompio_buffer_alloc_seg 4096 mallocOk (UINT64_MOD - 1)).buf).isSome = true ∧
    (mca_common_ompio_buffer_alloc_seg 4096 mallocOk (UINT64_MOD - 1)).size
      ≠ specActualSize (UINT64_MOD - 1) 4096 ∧
    (mca_common_ompio_buffer_alloc_seg 4096 mallocOk (UINT64_MOD - 1)).size
      < UINT64_MOD - 1 := by
  refine ⟨rfl, by decide, by decide⟩

/-- Claim C5 (amended): for every requested size whose page rounding does
not overflow `size_t`, the actual size written back by
`mca_common_ompio_buffer_alloc_seg` is exactly
`ceil(s / pageSize) * pageSize` and is at least the requested size; for
requests within a page of `2^64` the `size_t` addition wraps and the
computed size is 0. -/
theorem C5_exact_rounding_amended (pagesize : Nat) (malloc : Nat → Option Nat)
    (s : Nat) (hps : 0 < pagesize) (hnw : s + pagesize - 1 < UINT64_MOD) :
    (mca_common_ompio_buffer_alloc_seg pagesize malloc s).size
      = specActualSize s pagesize ∧
    s ≤ (mca_common_ompio_buffer_alloc_seg pagesize malloc s).size := by
  rw [alloc_seg_size_eq, Nat.mod_eq_of_lt hnw]
  refine ⟨rfl, ?_⟩
  have hdm := Nat.div_add_mod (s + pagesize - 1) pagesize
  have hmod := Nat.mod_lt (s + pagesize - 1) hps
  have hcomm : (s + pagesize - 1) / pagesize * pagesize
      = pagesize * ((s + pagesize - 1) / pagesize) := Nat.mul_comm _ _
  omega

/-- Claim C5, witness: the amended exact-rounding theorem applied at the
spec's own example `s = 4097`, `pageSize = 4096`, where the actual size is
8192. -/
theorem C5_exact_rounding_witness :
    (mca_common_ompio_buffer_alloc_seg 4096 mallocOk 4097).size
      = specActualSize 4097 4096 ∧
    4097 ≤ (mca_common_ompio_buffer_alloc_seg 4096 mallocOk 4097).size :=
  C5_exact_rounding_amended 4096 mallocOk 4097 (by decide) (by decide)

/-- Claim C7: with the no-accelerator-buffers assertion clear,
`mca_common_ompio_check_gpu_buf` maps a strictly positive `check_addr`
return with the unified-memory flag to `is_gpu = 1`, `is_managed = 1`; a
strictly positive return without the flag to `is_gpu = 1`, `is_managed = 0`;
and a zero or negative return to `is_gpu = 0`, `is_managed = 0` (the failed
query is absorbed, never escalated). -/
theorem C7_classifier_mapping (check_addr : Nat → CheckAddrOut)
    (fh : OmpioFileHandle) (buf : Nat)
    (hflag : fh.f_flags &&& OMPI_FILE_ASSERT_NO_ACCEL_BUF = 0) :
    (0 < (check_addr buf).ret →
      ((check_addr buf).flags &&& MCA_ACCELERATOR_FLAGS_UNIFIED_MEMORY ≠ 0 →
        (mca_common_ompio_check_gpu_buf check_addr fh buf).is_gpu = 1 ∧
        (mca_common_ompio_check_gpu_buf check_addr fh buf).is_managed = 1) ∧
      ((check_addr buf).flags &&& MCA_ACCELERATOR_FLAGS_UNIFIED_MEMORY = 0 →
        (mca_common_ompio_check_gpu_buf check_addr fh buf).is_gpu = 1 ∧
        (mca_common_ompio_check_gpu_buf check_addr fh buf).is_managed = 0)) ∧
    ((check_addr buf).ret ≤ 0 →
      (mca_common_ompio_check_gpu_buf check_addr fh buf).is_gpu = 0 ∧
      (mca_common_ompio_check_gpu_buf check_addr fh buf).is_managed = 0) := by
  refine ⟨fun hret => ⟨fun hu => ?_, fun hu => ?_⟩, fun hret => ?_⟩
  · simp [mca_common_ompio_check_gpu_buf, hflag, hret, hu]
  · simp [mca_common_ompio_check_gpu_buf, hflag, hret, hu]
  · have hnot : ¬ 0 < (check_addr buf).ret := by omega
    simp [mca_common_ompio_check_gpu_buf, hflag, hnot]

/-- Claim C7, witness: the mapping theorem applied to a concrete oracle
reporting unified device memory, with clear handle flags. -/
theorem C7_classifier_mapping_witness :
    (mca_common_ompio_check_gpu_buf checkAddrUnified { f_flags := 0 } 5).is_gpu = 1 ∧
    (mca_common_ompio_check_gpu_buf checkAddrUnified { f_flags := 0 } 5).is_managed = 1 :=
  ((C7_classifier_mapping checkAddrUnified { f_flags := 0 } 5 (by decide)).1
    (by decide)).1 (by decide)

/-- Claim C8: whenever `OMPI_FILE_ASSERT_NO_ACCEL_BUF` is set in the file
handle flags, `mca_common_ompio_check_gpu_buf` returns host memory
(`is_gpu = 0`, `is_managed = 0`) and never invokes the accelerator
runtime's `check_addr`, for every oracle and pointer. -/
theorem C8_classifier_bypass (check_addr : Nat → CheckAddrOut)
    (fh : OmpioFileHandle) (buf : Nat)
    (hflag : fh.f_flags &&& OMPI_FILE_ASSERT_NO_ACCEL_BUF ≠ 0) :
    (mca_common_ompio_check_gpu_buf check_addr fh buf).is_gpu = 0 ∧
    (mca_common_ompio_check_gpu_buf check_addr fh buf).is_managed = 0 ∧
    (mca_common_ompio_check_gpu_buf check_addr fh buf).queried_accelerator = false := by
  simp [mca_common_ompio_check_gpu_buf, hflag]

/-- Claim C8, witness: the bypass theorem applied to a handle with the
assertion bit set, against an oracle that would report device memory. -/
theorem C8_classifier_bypass_witness :
    (mca_common_ompio_check_gpu_buf checkAddrUnified { f_flags := 1 } 5).is_gpu = 0 ∧
    (mca_common_ompio_check_gpu_buf checkAddrUnified { f_flags := 1 } 5).is_managed = 0 ∧
    (mca_common_ompio_check_gpu_buf checkAddrUnified { f_flags := 1 } 5).queried_accelerator = false :=
  C8_classifier_bypass checkAddrUnified { f_flags := 1 } 5 (by decide)

/-- Claim C9: `mca_common_ompio_buffer_free_seg` on a NULL pointer performs
no external call at all (in particular no unregistration); on a non-NULL
pointer it queries `check_addr`, unregisters exactly when the query returns
0 (registered accelerator-visible host memory), and the raw `free` always
follows, for every value returned by the (discarded) `host_unregister`
oracle. -/
theorem C9_free_seg_behavior (check_addr : Nat → CheckAddrOut)
    (host_unregister_ret : Int → Nat → Int) :
    (mca_common_ompio_buffer_free_seg check_addr host_unregister_ret none = []) ∧
    (∀ b : Nat,
      (FreeEvent.check_addr_call b
        ∈ mca_common_ompio_buffer_free_seg check_addr host_unregister_ret (some b)) ∧
      ((check_addr b).ret = 0 →
        mca_common_ompio_buffer_free_seg check_addr host_unregister_ret (some b)
          = [FreeEvent.check_addr_call b,
             FreeEvent.host_unregister (check_addr b).dev_id b,
             FreeEvent.free_call b]) ∧
      ((check_addr b).ret ≠ 0 →
        mca_common_ompio_buffer_free_seg check_addr host_unregister_ret (some b)
          = [FreeEvent.check_addr_call b, FreeEvent.free_call b]) ∧
      (FreeEvent.free_call b
        ∈ mca_common_ompio_buffer_free_seg check_addr host_unregister_ret (some b))) := by
  refine ⟨rfl, fun b => ?_⟩
  by_cases h : (check_addr b).ret = 0 <;>
    simp [mca_common_ompio_buffer_free_seg, h]

/-- Claim C9, witness: the free-path theorem applied to a host-memory
oracle and an unregister oracle that always fails; the NULL call performs
nothing and the non-NULL call unregisters and still frees. -/
theorem C9_free_seg_witness :
    mca_common_ompio_buffer_free_seg checkAddrHost unregAlwaysFails none = [] ∧
    mca_common_ompio_buffer_free_seg checkAddrHost unregAlwaysFails (some 9)
      = [FreeEvent.check_addr_call 9, FreeEvent.host_unregister 2 9,
         FreeEvent.free_call 9] :=
  ⟨(C9_free_seg_behavior checkAddrHost unregAlwaysFails).1,
   ((C9_free_seg_behavior checkAddrHost unregAlwaysFails).2 9).2.1 (by decide)⟩

/-- Claim C10: when the raw `malloc` fails, the segment allocator returns
NULL and its call trace contains no `host_register` event; when `malloc`
succeeds, the buffer is returned and the trace is exactly the successful
`malloc` call followed by the `host_register` call on the allocated range —
registration happens only after a successful raw allocation. -/
theorem C10_register_after_malloc (pagesize : Nat) (malloc : Nat → Option Nat)
    (s : Nat) :
    ((mca_common_ompio_buffer_alloc_seg pagesize malloc s).buf = none →
      ∀ e ∈ (mca_common_ompio_buffer_alloc_seg pagesize malloc s).events,
        e.isRegister = false) ∧
    (∀ b : Nat, (mca_common_ompio_buffer_alloc_seg pagesize malloc s).buf = some b →
      (mca_common_ompio_buffer_alloc_seg pagesize malloc s).events
        = [SegEvent.malloc_call (mca_common_ompio_buffer_alloc_seg pagesize malloc s).size true,
           SegEvent.host_register MCA_ACCELERATOR_NO_DEVICE_ID b
             (mca_common_ompio_buffer_alloc_seg pagesize malloc s).size]) := by
  cases h : malloc ((s + pagesize - 1) % UINT64_MOD / pagesize * pagesize) <;>
    simp [mca_common_ompio_buffer_alloc_seg, h, SegEvent.isRegister]

/-- Claim C10, witness: the theorem applied to an always-failing `malloc`:
the result is NULL and no registration event occurs. -/
theorem C10_register_after_malloc_witness :
    ∀ e ∈ (mca_common_ompio_buffer_alloc_seg 4096 mallocNone 5).events,
      e.isRegister = false :=
  (C10_register_after_malloc 4096 mallocNone 5).1 rfl

/-- An integer already inside the `int32_t` range is unchanged by the
32-bit wrap. -/
theorem wrap32_small (n : Int) (h0 : 0 ≤ n) (h1 : n < 2147483648) :
    wrap32 n = n := by
  unfold wrap32
  omega

/-- Every branch of the init entry point stores the incremented counter. -/
theorem init_buffer_init (env : LifecycleEnv) (s : BufState) :
    (mca_common_ompio_buffer_alloc_init env s).state.buffer_init
      = wrap32 (s.buffer_init + 1) := by
  simp only [mca_common_ompio_buffer_alloc_init]
  split_ifs <;> rfl

/-- A call whose post-increment counter value exceeds 1 returns success
without entering the construction body. -/
theorem init_skips_construction (env : LifecycleEnv) (t : BufState)
    (h : 1 < wrap32 (t.buffer_init + 1)) :
    (mca_common_ompio_buffer_alloc_init env t).construction_ran = false ∧
    (mca_common_ompio_buffer_alloc_init env t).ret = RetCode.success := by
  simp [mca_common_ompio_buffer_alloc_init, h]

/-- A call whose post-increment counter value is at most 1 enters the
construction body. -/
theorem init_runs_construction (env : LifecycleEnv) (t : BufState)
    (h : ¬ 1 < wrap32 (t.buffer_init + 1)) :
    (mca_common_ompio_buffer_alloc_init env t).construction_ran = true := by
  unfold mca_common_ompio_buffer_alloc_init
  rw [if_neg h]
  split
  · rfl
  · split <;> rfl

/-- Iterating the init entry point from a non-negative counter that stays
inside the `int32_t` range adds one per call. -/
theorem iterate_init_counter (env : LifecycleEnv) (n : Nat) :
    ∀ s : BufState, 0 ≤ s.buffer_init →
      s.buffer_init + (n : Int) < 2147483648 →
      (iterate_init env n s).buffer_init = s.buffer_init + (n : Int) := by
  induction n with
  | zero => intro s h0 h1; simp [iterate_init]
  | succ n ih =>
    intro s h0 h1
    have hstep : (mca_common_ompio_buffer_alloc_init env s).state.buffer_init
        = s.buffer_init + 1 := by
      rw [init_buffer_init, wrap32_small] <;> push_cast at h1 ⊢ <;> omega
    have hrec := ih (mca_common_ompio_buffer_alloc_init env s).state
      (by rw [hstep]; omega)
      (by rw [hstep]; push_cast at h1 ⊢; omega)
    simp only [iterate_init]
    rw [hrec, hstep]
    push_cast
    ring

/-- Claim C6: across a sequence of calls to
`mca_common_ompio_buffer_alloc_init` from the fresh state, call `i` observes
the post-increment counter value `i + 1`, the construction body runs exactly
on the call that moves the counter from 0 to 1 (call 0), and every later
call returns success; moreover, for any state, a call observing a counter
value greater than 1 performs no construction and returns success. -/
theorem C6_single_construction (env : LifecycleEnv) (i : Nat)
    (hi : (i : Int) + 1 < 2147483648) :
    ((mca_common_ompio_buffer_alloc_init env
        (iterate_init env i initialBufState)).state.buffer_init = (i : Int) + 1) ∧
    ((mca_common_ompio_buffer_alloc_init env
        (iterate_init env i initialBufState)).construction_ran = decide (i = 0)) ∧
    (0 < i → (mca_common_ompio_buffer_alloc_init env
        (iterate_init env i initialBufState)).ret = RetCode.success) ∧
    (∀ t : BufState, 1 < wrap32 (t.buffer_init + 1) →
      (mca_common_ompio_buffer_alloc_init env t).construction_ran = false ∧
      (mca_common_ompio_buffer_alloc_init env t).ret = RetCode.success) := by
  have hcnt : (iterate_init env i initialBufState).buffer_init = (i : Int) := by
    have := iterate_init_counter env i initialBufState (by decide) (by
      show (0 : Int) + (i : Int) < 2147483648
      omega)
    rw [this]
    show (0 : Int) + (i : Int) = (i : Int)
    omega
  have hwrap : wrap32 ((iterate_init env i initialBufState).buffer_init + 1)
      = (i : Int) + 1 := by
    rw [hcnt, wrap32_small] <;> omega
  refine ⟨?_, ?_, ?_, fun t ht => init_skips_construction env t ht⟩
  · rw [init_buffer_init, hwrap]
  · by_cases h0 : i = 0
    · subst h0
      have hrun := init_runs_construction env (iterate_init env 0 initialBufState)
        (by rw [hwrap]; decide)
      simp [hrun]
    · have hgt : 1 < wrap32 ((iterate_init env i initialBufState).buffer_init + 1) := by
        rw [hwrap]; omega
      have hskip := init_skips_construction env _ hgt
      simp [hskip.1, h0]
  · intro hpos
    have hgt : 1 < wrap32 ((iterate_init env i initialBufState).buffer_init + 1) := by
      rw [hwrap]; omega
    exact (init_skips_construction env _ hgt).2

/-- Claim C6, witness: the fourth init call (i = 3) observes counter value
4, performs no construction, and returns success. -/
theorem C6_single_construction_witness :
    ((mca_common_ompio_buffer_alloc_init envGood
        (iterate_init envGood 3 initialBufState)).state.buffer_init
      = ((3 : Nat) : Int) + 1) ∧
    ((mca_common_ompio_buffer_alloc_init envGood
        (iterate_init envGood 3 initialBufState)).construction_ran
      = decide ((3 : Nat) = 0)) ∧
    ((mca_common_ompio_buffer_alloc_init envGood
        (iterate_init envGood 3 initialBufState)).ret = RetCode.success) :=
  ⟨(C6_single_construction envGood 3 (by norm_num)).1,
   (C6_single_construction envGood 3 (by norm_num)).2.1,
   (C6_single_construction envGood 3 (by norm_num)).2.2.1 (by decide)⟩

/-- Claim C1, counterexample: in a fully functional environment, a
successful init followed by a successful finalize leaves the counter at 1;
the next `mca_common_ompio_alloc_buf` therefore does not re-run construction
and dereferences the NULL allocator handle instead of returning a buffer —
finalize does lock allocation out. -/
theorem C1_fini_lockout_counterexample :
    ((mca_common_ompio_buffer_alloc_init envGood initialBufState).ret
      = RetCode.success) ∧
    ((mca_common_ompio_buffer_alloc_fini
        (mca_common_ompio_buffer_alloc_init envGood initialBufState).state).finalized
      = true) ∧
    ((mca_common_ompio_alloc_buf envGood
        (mca_common_ompio_buffer_alloc_fini
          (mca_common_ompio_buffer_alloc_init envGood initialBufState).state).state
        100).init_attempted = false) ∧
    ((mca_common_ompio_alloc_buf envGood
        (mca_common_ompio_buffer_alloc_fini
          (mca_common_ompio_buffer_alloc_init envGood initialBufState).state).state
        100).outcome = AllocBufOutcome.null_handle_deref) := by
  decide

/-- Claim C1 (amended): after a successful finalize from any state with a
live allocator handle and a non-zero init counter, the next
`mca_common_ompio_alloc_buf` call does not re-run lazy construction — the
counter was never reset, so the lazy-init check is skipped — and it
dereferences the cleared (NULL) allocator handle rather than returning a
buffer: finalize causes a permanent lockout of allocation. -/
theorem C1_fini_lockout (env : LifecycleEnv) (s : BufState) (bufsize : Nat)
    (halloc : s.allocator = true) (hcnt : s.buffer_init ≠ 0) :
    ((mca_common_ompio_buffer_alloc_fini s).finalized = true) ∧
    ((mca_common_ompio_alloc_buf env
        (mca_common_ompio_buffer_alloc_fini s).state bufsize).init_attempted
      = false) ∧
    ((mca_common_ompio_alloc_buf env
        (mca_common_ompio_buffer_alloc_fini s).state bufsize).outcome
      = AllocBufOutcome.null_handle_deref) := by
  have hfini : mca_common_ompio_buffer_alloc_fini s
      = { ret := RetCode.success
          state := { s with allocator := false, mutex_alive := false }
          finalized := true } := by
    simp [mca_common_ompio_buffer_alloc_fini, halloc]
  rw [hfini]
  refine ⟨rfl, ?_, ?_⟩ <;> simp [mca_common_ompio_alloc_buf, hcnt]

/-- Claim C1, witness: the lockout theorem applied to the concrete state
reached by a single successful init. -/
theorem C1_fini_lockout_witness :
    ((mca_common_ompio_buffer_alloc_fini
        (mca_common_ompio_buffer_alloc_init envGood initialBufState).state).finalized
      = true) ∧
    ((mca_common_ompio_alloc_buf envGood
        (mca_common_ompio_buffer_alloc_fini
          (mca_common_ompio_buffer_alloc_init envGood initialBufState).state).state
        8).init_attempted = false) ∧
    ((mca_common_ompio_alloc_buf envGood
        (mca_common_ompio_buffer_alloc_fini
          (mca_common_ompio_buffer_alloc_init envGood initialBufState).state).state
        8).outcome = AllocBufOutcome.null_handle_deref) :=
  C1_fini_lockout envGood
    (mca_common_ompio_buffer_alloc_init envGood initialBufState).state 8
    (by decide) (by decide)

/-- When the counter is 0 and construction fails (component lookup fails or
the allocator instantiation returns NULL), the init entry point leaves the
allocator handle absent, advances the counter to 1, and reports
`OMPI_ERR_BUFFER`. -/
theorem init_fail_state (env : LifecycleEnv) (t : BufState)
    (h0 : t.buffer_init = 0) (hal : t.allocator = false)
    (hfail : env.lookup_basic_ok = false ∨ env.allocator_init_ok = false) :
    (mca_common_ompio_buffer_alloc_init env t).state.allocator = false ∧
    (mca_common_ompio_buffer_alloc_init env t).state.buffer_init = 1 ∧
    (mca_common_ompio_buffer_alloc_init env t).ret = RetCode.err_buffer := by
  have hw : wrap32 (t.buffer_init + 1) = 1 := by rw [h0]; decide
  rcases hfail with h | h
  · simp [mca_common_ompio_buffer_alloc_init, hw, h, hal]
  · cases hl : env.lookup_basic_ok
    · simp [mca_common_ompio_buffer_alloc_init, hw, hl, hal]
    · simp [mca_common_ompio_buffer_alloc_init, hw, hl, h]

/-- Claim C2, counterexample: when the "basic" strategy lookup fails, the
first `mca_common_ompio_alloc_buf` call attempts construction (and fails),
and the second call does not attempt construction at all — the counter is 1,
so the fast path is taken even though the allocator handle is absent, and
the NULL handle is dereferenced.  The claim that every subsequent call
re-attempts construction fails on the code. -/
theorem C2_no_reconstruction_counterexample :
    ((mca_common_ompio_alloc_buf envNoLookup initialBufState 100).init_attempted
      = true) ∧
    ((mca_common_ompio_alloc_buf envNoLookup
        (mca_common_ompio_alloc_buf envNoLookup initialBufState 100).state
        100).init_attempted = false) ∧
    ((mca_common_ompio_alloc_buf envNoLookup
        (mca_common_ompio_alloc_buf envNoLookup initialBufState 100).state
        100).outcome = AllocBufOutcome.null_handle_deref) := by
  decide

/-- Claim C2 (amended): if initialization fails, only the first
`mca_common_ompio_alloc_buf` call attempts construction; every subsequent
call finds the counter non-zero, skips reconstruction although the
allocator handle is still absent, and dereferences the NULL handle.  The
already-constructed fast path is tied to the counter alone, not to handle
presence. -/
theorem C2_fast_path_counter_only (env : LifecycleEnv) (b1 b2 : Nat)
    (hfail : env.lookup_basic_ok = false ∨ env.allocator_init_ok = false) :
    ((mca_common_ompio_alloc_buf env initialBufState b1).init_attempted = true) ∧
    ((mca_common_ompio_alloc_buf env
        (mca_common_ompio_alloc_buf env initialBufState b1).state b2).init_attempted
      = false) ∧
    ((mca_common_ompio_alloc_buf env
        (mca_common_ompio_alloc_buf env initialBufState b1).state b2).outcome
      = AllocBufOutcome.null_handle_deref) := by
  have hinit := init_fail_state env initialBufState rfl rfl hfail
  have hfirst : mca_common_ompio_alloc_buf env initialBufState b1
      = { outcome := AllocBufOutcome.null_handle_deref
          state := (mca_common_ompio_buffer_alloc_init env initialBufState).state
          init_attempted := true } := by
    have hz : initialBufState.buffer_init = 0 := rfl
    simp [mca_common_ompio_alloc_buf, hz, hinit.1]
  rw [hfirst]
  refine ⟨rfl, ?_, ?_⟩ <;>
    simp [mca_common_ompio_alloc_buf, hinit.1, hinit.2.1]

/-- Claim C2, witness: the amended theorem applied to the concrete
environment whose "basic" component lookup fails. -/
theorem C2_fast_path_counter_only_witness :
    ((mca_common_ompio_alloc_buf envNoLookup initialBufState 16).init_attempted
      = true) ∧
    ((mca_common_ompio_alloc_buf envNoLookup
        (mca_common_ompio_alloc_buf envNoLookup initialBufState 16).state
        32).init_attempted = false) ∧
    ((mca_common_ompio_alloc_buf envNoLookup
        (mca_common_ompio_alloc_buf envNoLookup initialBufState 16).state
        32).outcome = AllocBufOutcome.null_handle_deref) :=
  C2_fast_path_counter_only envNoLookup 16 32 (Or.inl rfl)

/-- Claim C3, counterexample: releasing a buffer while the subsystem is
uninitialized logs the anomaly but then dereferences the NULL allocator
handle — the release does not complete defensively. -/
theorem C3_release_uninit_counterexample :
    ((mca_common_ompio_release_buf initialBufState (some 42)).error_logged
      = true) ∧
    ((mca_common_ompio_release_buf initialBufState (some 42)).outcome
      = ReleaseBufOutcome.null_handle_deref) := by
  decide

/-- Claim C3 (amended): for every call to `mca_common_ompio_release_buf`
made while the allocator handle is absent (uninitialized or torn down), the
facade reports the anomaly exactly when the init counter is 0, but then
unconditionally calls `alc_free` through the absent handle, dereferencing a
NULL pointer; the release attempt does not fail safely. -/
theorem C3_release_uninit_null_deref (s : BufState) (buf : Option Nat)
    (h : s.allocator = false) :
    (mca_common_ompio_release_buf s buf).outcome
      = ReleaseBufOutcome.null_handle_deref ∧
    (mca_common_ompio_release_buf s buf).error_logged
      = decide (s.buffer_init = 0) := by
  simp [mca_common_ompio_release_buf, h]

/-- Claim C3, witness: the amended theorem applied to the fresh state with a
NULL buffer argument. -/
theorem C3_release_uninit_null_deref_witness :
    (mca_common_ompio_release_buf initialBufState none).outcome
      = ReleaseBufOutcome.null_handle_deref ∧
    (mca_common_ompio_release_buf initialBufState none).error_logged
      = decide (initialBufState.buffer_init = 0) :=
  C3_release_uninit_null_deref initialBufState none rfl

end CommonOmpioBuffer
